import Mathlib

/-!
Shallow embedding of the RebellBot market-data / trading core
(`src/RebellBot/services.py` against `src/RebellBot/config.py`), together
with theorems settling the frozen claims about it.

Conventions of the embedding:
* Python `async` functions are embedded as plain functions (awaiting is
  erased); calls into the network/pandas environment are oracles packaged
  in an environment record, so a theorem can quantify over their outcomes.
  Where the source applies an operator to the un-awaited coroutine object
  itself (services.py:128), the embedding keeps the concrete `TypeError`
  that operator raises, not the erased reading.
* Python exceptions are `Except PyErr`; a `try/except` that swallows the
  exception is an explicit `match` on the `Except` value.
* Prices (`Quotation`) are exact rationals: `units + nano / 10^9`.
* Python `set` objects are duplicate-free lists; `dict` objects keyed by
  strings are functions `String -> Option _` or association lists.
-/

/-- Python exception values that the embedded code can raise.
`attributeError` models `AttributeError` (missing class attribute),
`keyError` models `KeyError` (missing dict key), `stopIteration` models
the `StopIteration` escaping `next(...)` on an empty generator (the
NotFound case of the spec), `valueError` carries the message of a raised
`ValueError` (the InsufficientData case of the spec raises
`ValueError("Недостаточно данных")`), `typeError` models `TypeError`,
and `envError` stands for any error raised inside an external call
(network client, pandas). -/
inductive PyErr where
  | attributeError
  | keyError
  | stopIteration
  | valueError (msg : String)
  | typeError
  | envError (msg : String)
  deriving DecidableEq, Repr

deriving instance DecidableEq for Except

/-- `tinkoff.invest.Quotation`: a fixed-point price, `units + nano / 1e9`. -/
structure Quotation where
  units : Int
  nano : Int
  deriving DecidableEq, Repr

/-- `_convert_quotation` (services.py:251-253): exact rational value of a
`Quotation`. -/
def convertQuotation (q : Quotation) : ℚ :=
  (q.units : ℚ) + (q.nano : ℚ) / 1000000000

/-- A historic candle as used by the engine: OHLC prices and volume. -/
structure Candle where
  open_ : Quotation
  high : Quotation
  low : Quotation
  close : Quotation
  volume : Int
  deriving DecidableEq, Repr

/-- One instrument dict as built by `MarketDataService.get_instruments`
(services.py:99-104): the dict literal has exactly the keys
`figi`, `ticker`, `name`, `type` — in particular it has NO `volume` key. -/
structure Instrument where
  figi : String
  ticker : String
  name : String
  type : String
  deriving DecidableEq, Repr

/-- `instruments` dicts carry no `volume` key, so Python
`x.get("volume", 0)` always returns the default `0`
(services.py:247 against services.py:99-104). -/
def instrumentVolume (_i : Instrument) : Int := 0

/-- One price level of an order-book update payload. -/
structure OrderLevel where
  price : Quotation
  quantity : Int
  deriving DecidableEq, Repr

/-- The `payload` of an `orderbook` stream message (services.py:63-65). -/
structure OrderBookUpdate where
  figi : String
  bids : List OrderLevel
  asks : List OrderLevel
  deriving DecidableEq, Repr

/-- The cached order-book entry built by `_process_orderbook`
(services.py:68-74): converted (price, quantity) pairs plus the
`datetime.now()` timestamp (modelled as an opaque string supplied by the
caller). -/
structure OrderBookEntry where
  bids : List (ℚ × Int)
  asks : List (ℚ × Int)
  timestamp : String
  deriving DecidableEq, Repr

/-- A websocket message sent by the service; the subscribe message JSON
`{event: "orderbook:subscribe", figi: ..., depth: ...}`
(services.py:52-56 and 81-85). -/
structure WsMessage where
  event : String
  figi : String
  depth : Nat
  deriving DecidableEq, Repr

/-! ### Config (config.py) -/

/-- `Config.STREAMING` (config.py:22-27). -/
structure StreamingConfig where
  ws_url : String
  depth : Nat
  max_subscriptions : Nat
  reconnect_timeout : Nat
  deriving DecidableEq, Repr

def Config.STREAMING : StreamingConfig :=
  { ws_url := "wss://api-invest.tinkoff.ru/openapi/md/v1/md-openapi/ws"
    depth := 10
    max_subscriptions := 50
    reconnect_timeout := 5 }

/-- `Config.RISK_MANAGEMENT` (config.py:45-49), as the association list of
the dict literal: it has exactly the keys `max_daily_loss`,
`position_size`, `slippage` — and in particular NO `stop_loss_multiplier`
and NO `take_profit_multiplier` key. -/
def Config.RISK_MANAGEMENT : List (String × ℚ) :=
  [("max_daily_loss", 2), ("position_size", 3 / 2), ("slippage", 1 / 10)]

/-- Python `Config.RISK_MANAGEMENT[k]`: `some` value, or `none` when the
key is absent (in which case the Python subscript raises `KeyError`). -/
def riskLookup (k : String) : Option ℚ :=
  (Config.RISK_MANAGEMENT.find? (fun p => p.1 == k)).map Prod.snd

/-- The candle-interval enum (only the members the config uses). -/
inductive CandleInterval where
  | hour
  | min5
  deriving DecidableEq, Repr

/-- One profile of `Config.STRATEGY` (config.py:30-43). Its keys are
`interval`, `candles_needed`, `indicators` (a nested dict), `ml_features`
and `risk_multiplier`. -/
structure StrategyProfile where
  interval : CandleInterval
  candles_needed : Nat
  indicators : List (String × Nat)
  ml_features : List String
  risk_multiplier : ℚ
  deriving DecidableEq, Repr

/-- `Config.STRATEGY` (config.py:30-43): a dict with the single key
`short_term`. -/
def Config.STRATEGY : List (String × StrategyProfile) :=
  [("short_term",
    { interval := .min5
      candles_needed := 72
      indicators := [("ema", 9), ("sma", 20), ("rsi", 14), ("atr", 14)]
      ml_features := ["ema", "rsi", "atr", "volume"]
      risk_multiplier := 6 / 5 })]

/-- `Config.ML_SETTINGS` (config.py:8-19), the fields `train_model` and
`analyze` read (the model class and params live in the classifier model
below). -/
structure MLSettingsConfig where
  training_days : Nat
  features : List String
  retrain_hours : Nat
  deriving DecidableEq, Repr

def Config.ML_SETTINGS : MLSettingsConfig :=
  { training_days := 30
    features := ["ema", "rsi", "atr", "volume"]
    retrain_hours := 6 }

/-! ### MarketDataService state and operations (services.py:23-104) -/

/-- The mutable state of `MarketDataService` (services.py:26-32):
`orderbooks` and `candles_cache` dicts and the `subscriptions` set.
The set is modelled as a duplicate-free list. -/
structure MarketState where
  orderbooks : String → Option OrderBookEntry
  candles_cache : String → Option (List Candle)
  subscriptions : List String

/-- The subscribe message for one figi, as serialized by
`_resubscribe`/`subscribe` (services.py:52-56, 81-85). -/
def subscribeMsg (figi : String) : WsMessage :=
  { event := "orderbook:subscribe", figi := figi, depth := Config.STREAMING.depth }

/-- `MarketDataService._resubscribe` (services.py:49-56): one subscribe
message sent per element of the subscription set, in iteration order. -/
def resubscribeMsgs (subs : List String) : List WsMessage :=
  subs.map subscribeMsg

/-- Outcome of one iteration of the `while True` connection loop of
`start_streaming` (services.py:34-47): either the connect (or the
subsequent stream) raises, or the connect succeeds. -/
inductive ConnectOutcome where
  | failure (e : PyErr)
  | success
  deriving Repr

/-- One iteration of `start_streaming` as far as the subscription state and
the sent subscribe messages are concerned (services.py:36-47): on failure
the `except` branch only logs the error and sleeps
`Config.STREAMING["reconnect_timeout"]` seconds — it touches none of the
service state — and no message is sent; on success `_resubscribe` runs and
sends one subscribe message per subscription. (The receive loop
`_stream_handler` that follows a successful connect mutates only
`orderbooks`, via `_process_orderbook`; it is modelled separately by
`processOrderbook`.) -/
def streamConnectAttempt (st : MarketState) (o : ConnectOutcome) :
    MarketState × List WsMessage :=
  match o with
  | .failure _ => (st, [])
  | .success => (st, resubscribeMsgs st.subscriptions)

/-- Folding `N` consecutive failed connection attempts of the
`start_streaming` loop over the service state. -/
def afterFailures (st : MarketState) : List PyErr → MarketState
  | [] => st
  | e :: es => afterFailures (streamConnectAttempt st (.failure e)).1 es

/-- `MarketDataService.subscribe` (services.py:76-85): if the figi is not
yet in the subscription set it is added, and a subscribe message is sent
when a websocket connection is currently open (`self.ws` truthy). If the
figi is already subscribed, nothing happens. Note: the method performs NO
check against `Config.STREAMING["max_subscriptions"]`. -/
def MarketDataService.subscribe (st : MarketState) (wsOpen : Bool)
    (figi : String) : MarketState × List WsMessage :=
  if figi ∈ st.subscriptions then (st, [])
  else
    ({ st with subscriptions := st.subscriptions ++ [figi] },
     if wsOpen then [subscribeMsg figi] else [])

/-- `MarketDataService._process_orderbook` (services.py:65-74): replaces the
`orderbooks` entry of the update figi wholesale with the converted bids
and asks and the current time; nothing else is touched. -/
def processOrderbook (st : MarketState) (data : OrderBookUpdate)
    (nowTs : String) : MarketState :=
  { st with
    orderbooks := fun g =>
      if g = data.figi then
        some { bids := data.bids.map (fun l => (convertQuotation l.price, l.quantity))
               asks := data.asks.map (fun l => (convertQuotation l.price, l.quantity))
               timestamp := nowTs }
      else st.orderbooks g }

/-! ### Technical indicators (FeatureEngine)

The source computes indicators through `pandas_ta` (`ta.ema`, `ta.rsi`,
`ta.atr`, services.py:164-166 and 227-229), an external library whose code
is not part of this repository. Modelled from the spec: section 4.4 of the
specification defines the three indicators (EMA recurrence with
k = 2/(length+1) seeded by the simple average of the first `length`
closes; Wilder-smoothed RSI with RSI = 100 - 100/(1+avgGain/avgLoss) and
avgLoss = 0 giving 100; ATR as the Wilder-smoothed average of the true
range), all requiring at least `length+1` candles and returning an
InsufficientData failure on fewer — modelled as `none`. -/

/-- Consecutive differences `xs[i+1] - xs[i]`. -/
def stepDiffs : List ℚ → List ℚ
  | [] => []
  | [_] => []
  | a :: b :: rest => (b - a) :: stepDiffs (b :: rest)

/-- Wilder smoothing step: fold `acc -> (acc*(L-1) + x)/L` over the tail
values, starting from the plain average of the first `L` values. -/
def wilderSmooth (L : Nat) (init : ℚ) (xs : List ℚ) : ℚ :=
  xs.foldl (fun acc x => (acc * ((L : ℚ) - 1) + x) / (L : ℚ)) init

/-- Wilder running average of a value sequence with period `L`: simple
average of the first `L` values, then Wilder smoothing over the rest. -/
def wilderAverage (L : Nat) (xs : List ℚ) : ℚ :=
  wilderSmooth L ((xs.take L).sum / (L : ℚ)) (xs.drop L)

/-- Modelled from the spec (section 4.4): EMA of the closes with period
`L`, seeded by the simple average of the first `L` closes, recurrence
`ema = close*k + ema*(1-k)` with `k = 2/(L+1)`; `none` when fewer than
`L+1` closes are supplied (the InsufficientData case). -/
def emaIndicator (L : Nat) (closes : List ℚ) : Option ℚ :=
  if L = 0 ∨ closes.length < L + 1 then none
  else
    let k : ℚ := 2 / ((L : ℚ) + 1)
    some ((closes.drop L).foldl (fun e c => c * k + e * (1 - k))
      ((closes.take L).sum / (L : ℚ)))

/-- Wilder average gain of a close series over period `L`. -/
def avgGain (L : Nat) (closes : List ℚ) : ℚ :=
  wilderAverage L ((stepDiffs closes).map (fun d => max d 0))

/-- Wilder average loss of a close series over period `L`. -/
def avgLoss (L : Nat) (closes : List ℚ) : ℚ :=
  wilderAverage L ((stepDiffs closes).map (fun d => max (-d) 0))

/-- Modelled from the spec (section 4.4): Wilder RSI of the closes with
period `L`: `100 - 100/(1 + avgGain/avgLoss)`, and `100` when the average
loss is zero; `none` when fewer than `L+1` closes are supplied. -/
def rsiIndicator (L : Nat) (closes : List ℚ) : Option ℚ :=
  if L = 0 ∨ closes.length < L + 1 then none
  else
    some (if avgLoss L closes = 0 then 100
          else 100 - 100 / (1 + avgGain L closes / avgLoss L closes))

/-- True ranges of a candle series: for each consecutive pair
(previous, current), `max (high-low) (max |high-prevClose| |low-prevClose|)`. -/
def trueRanges : List (ℚ × ℚ × ℚ) → List ℚ
  | [] => []
  | [_] => []
  | a :: b :: rest =>
    max (b.1 - b.2.1) (max |b.1 - a.2.2| |b.2.1 - a.2.2|) ::
      trueRanges (b :: rest)

/-- Modelled from the spec (section 4.4): ATR with period `L` — the Wilder
average of the true ranges of the (high, low, close) series; `none` when
fewer than `L+1` candles are supplied. -/
def atrIndicator (L : Nat) (hlc : List (ℚ × ℚ × ℚ)) : Option ℚ :=
  if L = 0 ∨ hlc.length < L + 1 then none
  else some (wilderAverage L (trueRanges hlc))

/-! ### TradingEngine.analyze and its helpers (services.py:107-253) -/

/-- The strategy-parameter record `analyze` and `_technical_analysis`
expect: they subscript `params` with the keys `days`, `interval`,
`min_candles`, `ema`, `rsi`, `atr` (services.py:180-186, 227-229). -/
structure StrategyParams where
  days : Nat
  interval : CandleInterval
  min_candles : Nat
  ema : Nat
  rsi : Nat
  atr : Nat
  deriving DecidableEq, Repr

/-- The lookup `Config.STRATEGY_PARAMS[mode]` performed by `analyze`
(services.py:179). `config.py` defines NO attribute named
`STRATEGY_PARAMS` — its strategy table is the attribute `STRATEGY`
(config.py:30), whose profiles moreover carry the keys `candles_needed`
and a nested `indicators` dict rather than `min_candles`/`days`/`ema`/
`rsi`/`atr`. In Python, reading the missing class attribute raises
`AttributeError` for every `mode`, before the subscript is even applied. -/
def strategyParamsLookup (_mode : String) : Except PyErr StrategyParams :=
  .error .attributeError

/-- The analysis dict assembled by `_technical_analysis`
(services.py:226-238). -/
structure TechnicalAnalysisOut where
  ema : ℚ
  rsi : ℚ
  atr : ℚ
  decision : String
  stop_loss : ℚ
  take_profit : ℚ
  deriving DecidableEq, Repr

/-- `TradingEngine._technical_analysis` (services.py:220-240): computes the
last EMA/RSI/ATR values of the candle series (an indicator call that
cannot produce a value — too little data — makes the pandas expression
`.iloc[-1]` fail, modelled as `typeError`), builds the analysis dict with
decision `"Держать"` (Hold), then overwrites `stop_loss` and
`take_profit` using `Config.RISK_MANAGEMENT["stop_loss_multiplier"]` and
`Config.RISK_MANAGEMENT["take_profit_multiplier"]` (services.py:237-238).
Those dict subscripts raise `KeyError` whenever the key is absent from
`Config.RISK_MANAGEMENT`. -/
def technicalAnalysis (candles : List Candle) (params : StrategyParams) :
    Except PyErr TechnicalAnalysisOut :=
  let closes := candles.map (fun c => convertQuotation c.close)
  let hlc := candles.map (fun c =>
    (convertQuotation c.high, convertQuotation c.low, convertQuotation c.close))
  match emaIndicator params.ema closes, rsiIndicator params.rsi closes,
      atrIndicator params.atr hlc with
  | some e, some r, some a =>
    match riskLookup "stop_loss_multiplier", riskLookup "take_profit_multiplier" with
    | some slm, some tpm =>
      .ok { ema := e, rsi := r, atr := a, decision := "Держать"
            stop_loss := closes.getLast?.getD 0 - a * slm
            take_profit := closes.getLast?.getD 0 + a * tpm }
    | _, _ => .error .keyError
  | _, _, _ => .error .typeError

/-- The fitted-classifier interface `analyze` uses (services.py:200-202):
`predict` returns the predicted label of a feature row and
`predict_proba ... [0][1]` the probability of the label-1 class. An
unfitted or otherwise failing model raises, modelled by `Except`. -/
structure MLModel where
  predict : List ℚ → Except PyErr Int
  predictProba1 : List ℚ → Except PyErr ℚ

/-- The dict returned by a successful `analyze` (services.py:206-214). -/
structure AnalysisResult where
  ticker : String
  decision : String
  confidence : ℚ
  price : ℚ
  stop_loss : ℚ
  take_profit : ℚ
  timestamp : String
  deriving DecidableEq, Repr

/-- The environment of one `analyze` call: the outcomes of the two external
fetches it performs. -/
structure AnalyzeEnv where
  getInstruments : Except PyErr (List Instrument)
  getCandles : String → Nat → CandleInterval → Except PyErr (List Candle)

/-- Python `str.upper()` as applied to the input ticker
(services.py:176, 207). Tickers are short ASCII codes; modelled as the
per-character ASCII uppercase map. -/
def pyUpper (s : String) : String := ⟨s.data.map Char.toUpper⟩

/-- Ticker resolution inside `analyze` (services.py:176):
`next(i for i in instruments if i["ticker"] == ticker.upper())` — the
first instrument whose `ticker` equals the UPPERCASED input; `none` when
no instrument matches (in Python the `next` call then raises
`StopIteration`). -/
def resolveTicker (instruments : List Instrument) (ticker : String) :
    Option Instrument :=
  instruments.find? (fun i => i.ticker == pyUpper ticker)

/-- `TradingEngine.analyze` (services.py:171-218). The surrounding
`try/except` turns any raised exception into the error dict
`{"error": str(e)}` (services.py:216-218); the embedding keeps the raised
exception as the `.error` case. `mlModel` is the value of `self.ml_model`
at the time of the call, `nowTs` the formatted current time. -/
def analyze (env : AnalyzeEnv) (mlModel : Option MLModel) (nowTs : String)
    (ticker : String) (mode : String) : Except PyErr AnalysisResult := do
  let instruments ← env.getInstruments
  let instrument ← match resolveTicker instruments ticker with
    | some i => Except.ok i
    | none => Except.error PyErr.stopIteration
  let params ← strategyParamsLookup mode
  let candles ← env.getCandles instrument.figi params.days params.interval
  if candles.length < params.min_candles then
    Except.error (PyErr.valueError "Недостаточно данных")
  else do
    let analysis ← technicalAnalysis candles params
    let lastVolume : ℚ := (candles.getLast?.map (fun c => (c.volume : ℚ))).getD 0
    let featureOf : String → ℚ := fun k =>
      if k = "ema" then analysis.ema
      else if k = "rsi" then analysis.rsi
      else if k = "atr" then analysis.atr
      else lastVolume
    let row := Config.ML_SETTINGS.features.map featureOf
    let (decision, confidence) ←
      match mlModel with
      | none => Except.ok (analysis.decision, (0 : ℚ))
      | some m => do
        let pred ← m.predict row
        let proba ← m.predictProba1 row
        Except.ok ((if pred = 1 then "Покупать" else "Продавать"), proba * 100)
    Except.ok
      { ticker := pyUpper ticker
        decision := decision
        confidence := confidence
        price := (candles.getLast?.map (fun c => convertQuotation c.close)).getD 0
        stop_loss := analysis.stop_loss
        take_profit := analysis.take_profit
        timestamp := nowTs }

/-! ### TradingEngine.train_model (services.py:124-152) -/

/-- The `RandomForestClassifier` object as the engine state sees it:
`Config.ML_SETTINGS["model_class"](**model_params)` constructs an
UNFITTED classifier; a successful `fit(X, y)` turns the same object into
a fitted one (carrying its training data). -/
inductive Classifier where
  | unfitted
  | fitted (X : List (List ℚ)) (y : List ℚ)
  deriving DecidableEq, Repr

/-- The `TradingEngine` fields `train_model` reads and writes
(services.py:112-113): the active model and the last training time
(modelled as an opaque natural tick). -/
structure EngineState where
  ml_model : Option Classifier
  last_trained : Option Nat
  deriving DecidableEq, Repr

/-- One prepared per-instrument training frame: the rows that survive
`dropna` in `_prepare_training_data`, each carrying the feature values
(in `Config.ML_SETTINGS["features"]` order) and the target label. -/
structure TrainRow where
  features : List ℚ
  target : ℚ
  deriving DecidableEq, Repr

/-- The environment of one `train_model` run: the outcomes of its external
steps. `getInstruments` is the directory fetch; `getCandles` the
historical fetch per figi (with `training_days`/`training_interval` from
`Config.ML_SETTINGS`); `prepare` is `_prepare_training_data`
(services.py:154-169), whose pandas/pandas_ta pipeline may raise; `fit`
is `RandomForestClassifier.fit`, which raises e.g. on an empty or
malformed matrix. -/
structure TrainEnv where
  getInstruments : Except PyErr (List Instrument)
  getCandles : String → Except PyErr (List Candle)
  prepare : List Candle → Except PyErr (List TrainRow)
  fit : List (List ℚ) → List ℚ → Except PyErr Unit

/-- The instrument-fetch step of `train_model`, services.py:128:
`instruments = await self.market.get_instruments()[:5]`. In Python the
subscript binds tighter than `await`, so the slice `[:5]` is applied to
the un-awaited coroutine object returned by the `get_instruments()` call
and raises `TypeError: coroutine object is not subscriptable` on every
run — before the directory fetch is performed and regardless of what
`env.getInstruments` would have produced once awaited. -/
def coroutineSliceOfGetInstruments (_env : TrainEnv) :
    Except PyErr (List Instrument) :=
  .error .typeError

/-- The data-gathering phase of `train_model` (services.py:128-142): the
instrument-fetch line, which raises `TypeError` on every run (see
`coroutineSliceOfGetInstruments`), then — were a list ever obtained —
fetch and prepare candles per instrument, concatenate the frames
(`pd.concat` raises `ValueError` on an empty list of frames), and split
into the feature matrix `X` and the target column `y`. Everything after
the first bind is unreachable in the source and embedded as the dead code
it is. -/
def trainSteps (env : TrainEnv) : Except PyErr (List (List ℚ) × List ℚ) := do
  let instruments ← coroutineSliceOfGetInstruments env
  let frames ← instruments.mapM (fun i => do
    let candles ← env.getCandles i.figi
    env.prepare candles)
  let rows := frames.flatten
  if frames = [] then
    Except.error (PyErr.valueError "No objects to concatenate")
  else
    Except.ok (rows.map TrainRow.features, rows.map TrainRow.target)

/-- `TradingEngine.train_model` (services.py:124-152). The whole body is
wrapped in `try/except` that logs and swallows any exception; since the
first statement of the body raises `TypeError` on every run (see
`coroutineSliceOfGetInstruments`), every run takes the `.error` branch
and returns the engine state untouched. The rest mirrors the source's
(unreachable) continuation: the freshly constructed classifier is
assigned to `self.ml_model` (services.py:144-146) BEFORE `fit` is called
(services.py:147), and `last_trained` is updated only after a successful
fit (services.py:148). -/
def trainModel (env : TrainEnv) (nowTick : Nat) (s : EngineState) :
    EngineState :=
  match trainSteps env with
  | .error _ => s
  | .ok (X, y) =>
    let s1 : EngineState := { s with ml_model := some Classifier.unfitted }
    match env.fit X y with
    | .error _ => s1
    | .ok _ =>
      { ml_model := some (Classifier.fitted X y), last_trained := some nowTick }

/-! ### TradingEngine.get_top_instruments (services.py:242-249) -/

/-- Stable descending insertion of an element that originally preceded the
whole list: skip only elements with a strictly greater key, so that among
equal keys the inserted (originally earlier) element comes first. This is
the ordering contract of Python `sorted(..., key=..., reverse=True)`:
descending by key, original order preserved among equal keys (Python sort
is stable and `reverse=True` reverses comparisons, not the result). -/
def insertDescBy (key : Instrument → Int) (x : Instrument) :
    List Instrument → List Instrument
  | [] => [x]
  | y :: ys => if key y ≤ key x then x :: y :: ys else y :: insertDescBy key x ys

/-- Stable descending sort by key, the behaviour of Python
`sorted(instruments, key=..., reverse=True)`. -/
def sortedDescBy (key : Instrument → Int) : List Instrument → List Instrument
  | [] => []
  | x :: xs => insertDescBy key x (sortedDescBy key xs)

/-- `TradingEngine.get_top_instruments` (services.py:242-249): sort the
directory listing descending by `x.get("volume", 0)` — which is `0` for
every entry, since the dicts built by `get_instruments` have no `volume`
key — and keep the first 5. -/
def getTopInstruments (instruments : List Instrument) : List Instrument :=
  (sortedDescBy instrumentVolume instruments).take 5

/-! ### Helper lemmas -/

theorem insertDescBy_const_key (x : Instrument) (l : List Instrument) :
    insertDescBy instrumentVolume x l = x :: l := by
  cases l <;> simp [insertDescBy, instrumentVolume]

theorem sortedDescBy_const_key (l : List Instrument) :
    sortedDescBy instrumentVolume l = l := by
  induction l with
  | nil => rfl
  | cons x xs ih => simp [sortedDescBy, ih, insertDescBy_const_key]

theorem subscribeMsg_injective : Function.Injective subscribeMsg := by
  intro a b h
  simpa [subscribeMsg] using congrArg WsMessage.figi h

theorem afterFailures_id (st : MarketState) (es : List PyErr) :
    afterFailures st es = st := by
  induction es with
  | nil => rfl
  | cons e es ih => simpa [afterFailures, streamConnectAttempt] using ih

/-! ### Theorems for the claims -/

/-- C10: `get_top_instruments` returns exactly the first 5 instruments of
the directory listing in their original order: every sort key
`x.get("volume", 0)` is the default `0` (no listing dict has a `volume`
key) and the stable descending sort therefore leaves the list unchanged,
so the result is never actually ordered by traded volume. -/
theorem getTopInstruments_eq_take_five (instruments : List Instrument) :
    getTopInstruments instruments = instruments.take 5 := by
  simp [getTopInstruments, sortedDescBy_const_key]

/-- C9: `_process_orderbook` stores, for the update figi, exactly the
snapshot built from the update bids and asks (converted price, quantity,
current timestamp), and leaves the order books of every other figi, the
candle cache and the subscription set unchanged. -/
theorem processOrderbook_updates_only_target_figi (st : MarketState)
    (data : OrderBookUpdate) (nowTs : String) :
    (processOrderbook st data nowTs).orderbooks data.figi =
      some { bids := data.bids.map (fun l => (convertQuotation l.price, l.quantity))
             asks := data.asks.map (fun l => (convertQuotation l.price, l.quantity))
             timestamp := nowTs } ∧
    (∀ g, g ≠ data.figi →
      (processOrderbook st data nowTs).orderbooks g = st.orderbooks g) ∧
    (processOrderbook st data nowTs).candles_cache = st.candles_cache ∧
    (processOrderbook st data nowTs).subscriptions = st.subscriptions := by
  refine ⟨by simp [processOrderbook], fun g hg => ?_, rfl, rfl⟩
  simp [processOrderbook, hg]

/-- C6: connection failures of the `start_streaming` loop leave the
subscription set (indeed the whole service state) unchanged, and the
resubscription step of the next successful connect sends exactly one
subscribe message per subscribed instrument — count 1 for every element
of the set, count 0 for every other figi, and nothing but subscribe
messages for set elements. -/
theorem streaming_failures_preserve_subscriptions_and_resubscribe_once
    (st : MarketState) (es : List PyErr) (h : st.subscriptions.Nodup) :
    afterFailures st es = st ∧
    (∀ f, ((streamConnectAttempt (afterFailures st es) .success).2.count
        (subscribeMsg f) = if f ∈ st.subscriptions then 1 else 0)) ∧
    (∀ m ∈ (streamConnectAttempt (afterFailures st es) .success).2,
      ∃ f ∈ st.subscriptions, m = subscribeMsg f) := by
  refine ⟨afterFailures_id st es, fun f => ?_, fun m hm => ?_⟩
  · rw [afterFailures_id]
    show (resubscribeMsgs st.subscriptions).count (subscribeMsg f) = _
    rw [resubscribeMsgs, List.count_map_of_injective _ _ subscribeMsg_injective]
    by_cases hf : f ∈ st.subscriptions
    · rw [if_pos hf]
      exact List.count_eq_one_of_mem h hf
    · rw [if_neg hf]
      exact List.count_eq_zero_of_not_mem hf
  · rw [afterFailures_id] at hm
    obtain ⟨f, hf, rfl⟩ := List.mem_map.mp hm
    exact ⟨f, hf, rfl⟩

/-- Witness for C6: two subscriptions, three failed connection attempts. -/
def wStateC6 : MarketState :=
  { orderbooks := fun _ => none
    candles_cache := fun _ => none
    subscriptions := ["BBG004730N88", "BBG004730RP0"] }

def wFailsC6 : List PyErr :=
  [.envError "handshake", .envError "reset", .envError "timeout"]

theorem streaming_failures_witness :
    afterFailures wStateC6 wFailsC6 = wStateC6 ∧
    ((streamConnectAttempt (afterFailures wStateC6 wFailsC6) .success).2.count
        (subscribeMsg "BBG004730N88") = 1 ∧
      (streamConnectAttempt (afterFailures wStateC6 wFailsC6) .success).2.count
        (subscribeMsg "ZZZZ") = 0) := by
  have h := streaming_failures_preserve_subscriptions_and_resubscribe_once
    wStateC6 wFailsC6 (by decide)
  refine ⟨h.1, ?_, ?_⟩
  · rw [h.2.1 "BBG004730N88"]; decide
  · rw [h.2.1 "ZZZZ"]; decide

/-- The figi strings "0", "1", ..., "50": 51 distinct identifiers. -/
def manyFigis : List String := (List.range 51).map (fun n => toString n)

/-- The empty service state (fresh `MarketDataService.__init__`). -/
def emptyMarketState : MarketState :=
  { orderbooks := fun _ => none
    candles_cache := fun _ => none
    subscriptions := [] }

/-- The state after 51 `subscribe` calls with distinct figis. -/
def stateAfterManySubscribes : MarketState :=
  manyFigis.foldl (fun st f => (MarketDataService.subscribe st false f).1)
    emptyMarketState

set_option maxRecDepth 8192 in
/-- Counterexample to C7: `subscribe` never consults
`Config.STREAMING["max_subscriptions"]` (no code reads that key), so 51
subscribe calls with distinct figis leave a subscription set of size 51,
exceeding the configured maximum of 50. -/
theorem subscribe_can_exceed_max_subscriptions :
    ¬ (stateAfterManySubscribes.subscriptions.length ≤
        Config.STREAMING.max_subscriptions) := by
  decide

/-- C7 as amended: the subscription-set size is bounded by the initial size
plus the number of `subscribe` calls made (each call adds at most one
identifier); no bound derived from the configuration is enforced. -/
theorem subscribe_bounded_by_call_count (st : MarketState) (wsOpen : Bool)
    (calls : List String) :
    ((calls.foldl (fun s f => (MarketDataService.subscribe s wsOpen f).1)
        st).subscriptions.length ≤ st.subscriptions.length + calls.length) := by
  induction calls generalizing st with
  | nil => simp
  | cons c cs ih =>
    have hlen : ((MarketDataService.subscribe st wsOpen c).1).subscriptions.length ≤
        st.subscriptions.length + 1 := by
      by_cases hc : c ∈ st.subscriptions <;>
        simp [MarketDataService.subscribe, hc]
    have hrest := ih ((MarketDataService.subscribe st wsOpen c).1)
    simp only [List.foldl_cons, List.length_cons]
    omega

/-- A quotation of `n` whole units. -/
def qu (n : Int) : Quotation := { units := n, nano := 0 }

/-- A candle from whole-unit OHLC prices and a volume. -/
def mkCandle (o h l c v : Int) : Candle :=
  { open_ := qu o, high := qu h, low := qu l, close := qu c, volume := v }

/-- Three candles — fewer than the 72 the `short_term` profile requires. -/
def candlesShort : List Candle :=
  [mkCandle 100 110 90 105 10, mkCandle 105 115 95 100 12,
   mkCandle 100 120 98 118 9]

/-- C1: every failing run of `train_model` leaves `ml_model` and
`last_trained` — the whole engine state — exactly as they were before the
run. Indeed every run fails at its first step: the slice at
services.py:128 is applied to the un-awaited coroutine and raises
`TypeError` before `self.ml_model` is ever assigned, the `except` branch
(services.py:151-152) swallows the exception, and the state is returned
unchanged, whatever the external environment and the prior state — so
the previous snapshot remains active and no partially-constructed or
unfitted model ever becomes active. -/
theorem trainModel_failure_preserves_state (env : TrainEnv) (nowTick : Nat)
    (s : EngineState) :
    trainSteps env = .error .typeError ∧ trainModel env nowTick s = s := by
  exact ⟨rfl, rfl⟩

/-- Environment for the C2 failing input: the directory lists SBER and the
historical fetch can serve only 3 candles. -/
def envShortCandles : AnalyzeEnv :=
  { getInstruments :=
      .ok [{ figi := "BBG004730N88", ticker := "SBER"
             name := "Сбер Банк", type := "акция" }]
    getCandles := fun _ _ _ => .ok candlesShort }

/-- C2 (failing input): with a listed ticker and only 3 candles available
(the `short_term` profile's `candles_needed` is 72), `analyze` does not
fail with the InsufficientData error — it fails earlier, at the
`Config.STRATEGY_PARAMS[mode]` lookup (services.py:179), with
`AttributeError`, because `config.py` names the table `STRATEGY` and no
`STRATEGY_PARAMS` attribute exists; the candle-count check
(services.py:186) is never reached. -/
theorem analyze_short_candles_fails_at_profile_lookup :
    analyze envShortCandles none "2026-10-12 00:00" "SBER" "short_term" =
      .error .attributeError ∧
    (Config.STRATEGY.find? (fun p => p.1 == "short_term")).map
      (fun p => p.2.candles_needed) = some 72 ∧
    candlesShort.length < 72 := by
  refine ⟨by decide, by decide, by decide⟩

/-- Directory listing whose single ticker is NOT all uppercase. -/
def dirMixedCase : List Instrument :=
  [{ figi := "BBG0047315Y7", ticker := "Sber", name := "Сбер Банк"
     type := "акция" }]

def envMixedCase : AnalyzeEnv :=
  { getInstruments := .ok dirMixedCase
    getCandles := fun _ _ _ => .ok candlesShort }

/-- Counterexample to C3: the input ticker `"sber"` differs only in letter
case from the listed ticker `"Sber"`, yet resolution fails — the code
compares `i["ticker"] == ticker.upper()` (services.py:176), i.e.
`"Sber" == "SBER"`, which is false — and `analyze` fails with the
NotFound error (the `StopIteration` of the exhausted `next`) instead of
resolving to that instrument. -/
theorem analyze_case_differing_ticker_not_resolved :
    resolveTicker dirMixedCase "sber" = none ∧
    analyze envMixedCase none "2026-10-12 00:00" "sber" "short_term" =
      .error .stopIteration := by
  refine ⟨by decide, by decide⟩

/-- C3 as amended: ticker resolution uppercases the INPUT and requires
exact equality with a listed ticker — so it is case-insensitive in the
input exactly when the listed ticker is all uppercase: (1) whenever some
listed instrument's ticker equals the uppercased input, resolution
returns a listed instrument with that ticker; (2) whenever no listed
ticker equals the uppercased input, `analyze` fails with the NotFound
error. -/
theorem resolveTicker_upper_exact_match_and_notFound :
    (∀ (instruments : List Instrument) (t : String),
      (∃ i ∈ instruments, i.ticker = pyUpper t) →
      ∃ j, resolveTicker instruments t = some j ∧ j.ticker = pyUpper t) ∧
    (∀ (env : AnalyzeEnv) (instruments : List Instrument)
        (mm : Option MLModel) (nowTs t mode : String),
      env.getInstruments = .ok instruments →
      (∀ i ∈ instruments, i.ticker ≠ pyUpper t) →
      analyze env mm nowTs t mode = .error .stopIteration) := by
  constructor
  · rintro instruments t ⟨i, hi, hit⟩
    have hs : (instruments.find? (fun j => j.ticker == pyUpper t)).isSome := by
      rw [List.find?_isSome]
      exact ⟨i, hi, by simp [hit]⟩
    obtain ⟨j, hj⟩ := Option.isSome_iff_exists.mp hs
    exact ⟨j, hj, by simpa using List.find?_some hj⟩
  · intro env instruments mm nowTs t mode henv hnone
    have hfind : resolveTicker instruments t = none := by
      rw [resolveTicker, List.find?_eq_none]
      intro i hi
      simpa using hnone i hi
    simp [analyze, henv, hfind, Bind.bind, Except.bind]

/-- Witness for the amended C3: the tickers "GAZP" (listed uppercase,
queried lowercase — resolves) and "ZZZZ" (listed nowhere — NotFound). -/
def dirUpperCase : List Instrument :=
  [{ figi := "BBG004730RP0", ticker := "GAZP", name := "Газпром"
     type := "акция" }]

def envUpperCase : AnalyzeEnv :=
  { getInstruments := .ok dirUpperCase
    getCandles := fun _ _ _ => .ok candlesShort }

theorem resolveTicker_upper_exact_match_and_notFound_witness :
    (∃ j, resolveTicker dirUpperCase "gazp" = some j ∧
      j.ticker = pyUpper "gazp") ∧
    analyze envUpperCase none "2026-10-12 00:00" "ZZZZ" "short_term" =
      .error .stopIteration := by
  refine ⟨?_, ?_⟩
  · exact resolveTicker_upper_exact_match_and_notFound.1 dirUpperCase "gazp"
      ⟨dirUpperCase.head (by decide), by decide, by decide⟩
  · exact resolveTicker_upper_exact_match_and_notFound.2 envUpperCase
      dirUpperCase none "2026-10-12 00:00" "ZZZZ" "short_term" rfl
      (by decide)

/-- Environment for the C4 failing input: the directory lists GAZP and 80
candles are available, and no model snapshot is active. -/
def envNoModel : AnalyzeEnv :=
  { getInstruments := .ok dirUpperCase
    getCandles := fun _ _ _ => .ok (List.replicate 80 (mkCandle 100 110 90 105 10)) }

/-- C4 (failing input): with `ml_model = None`, a listed ticker and 80
candles available, the earlier steps of `analyze` cannot all succeed —
the call dies at the `Config.STRATEGY_PARAMS[mode]` lookup
(services.py:179) with `AttributeError` and returns the error dict, never
the Hold/confidence-0 result the claim describes (the Hold default of
`_technical_analysis`, services.py:230, and the confidence default 0,
services.py:209, are unreachable). -/
theorem analyze_without_model_fails_at_profile_lookup :
    analyze envNoModel none "2026-10-12 00:00" "GAZP" "short_term" =
      .error .attributeError := by
  decide

/-- Strategy parameters with indicator period 1 everywhere, so that all
three indicator values exist on a 3-candle series and
`_technical_analysis` runs all the way to its risk-level computation. -/
def paramsTiny : StrategyParams :=
  { days := 30, interval := .min5, min_candles := 1, ema := 1, rsi := 1
    atr := 1 }

/-- C5 (failing input): `Config.RISK_MANAGEMENT` defines no
`stop_loss_multiplier` and no `take_profit_multiplier` key, so the level
computation of `_technical_analysis` (services.py:237-238) raises
`KeyError` on every call that reaches it — no successful `analyze` call
with the claimed stop-loss/take-profit formula exists (independently,
`analyze` itself always dies earlier, at the profile lookup). -/
theorem technicalAnalysis_fails_at_risk_lookup :
    riskLookup "stop_loss_multiplier" = none ∧
    riskLookup "take_profit_multiplier" = none ∧
    technicalAnalysis candlesShort paramsTiny = .error .keyError := by
  refine ⟨by decide, by decide, by decide⟩

/-- Witness for C9: an update for figi BBB leaves the cached book of AAA,
the candle cache and the subscriptions untouched and stores exactly the
converted snapshot for BBB. -/
def bookBefore : OrderBookEntry :=
  { bids := [(5, 1)], asks := [], timestamp := "t0" }

def stateBefore : MarketState :=
  { orderbooks := fun g => if g = "AAA" then some bookBefore else none
    candles_cache := fun _ => none
    subscriptions := ["AAA"] }

def updateBBB : OrderBookUpdate :=
  { figi := "BBB"
    bids := [{ price := { units := 10, nano := 500000000 }, quantity := 3 }]
    asks := [{ price := { units := 11, nano := 0 }, quantity := 2 }] }

theorem processOrderbook_updates_only_target_figi_witness :
    (processOrderbook stateBefore updateBBB "t1").orderbooks "BBB" =
      some { bids := [(21 / 2, 3)], asks := [(11, 2)], timestamp := "t1" } ∧
    (processOrderbook stateBefore updateBBB "t1").orderbooks "AAA" =
      stateBefore.orderbooks "AAA" ∧
    (processOrderbook stateBefore updateBBB "t1").candles_cache =
      stateBefore.candles_cache ∧
    (processOrderbook stateBefore updateBBB "t1").subscriptions =
      stateBefore.subscriptions := by
  have h := processOrderbook_updates_only_target_figi stateBefore updateBBB "t1"
  refine ⟨h.1.trans ?_, h.2.1 "AAA" (by decide), h.2.2.1, h.2.2.2⟩
  norm_num [updateBBB, convertQuotation]

theorem wilderSmooth_nonneg (L : Nat) (hL : 1 ≤ L) (init : ℚ)
    (hinit : 0 ≤ init) (xs : List ℚ) (hxs : ∀ x ∈ xs, 0 ≤ x) :
    0 ≤ wilderSmooth L init xs := by
  induction xs generalizing init with
  | nil => exact hinit
  | cons x xs ih =>
    have hx : (0 : ℚ) ≤ x := hxs x (by simp)
    have h1 : (1 : ℚ) ≤ (L : ℚ) := by exact_mod_cast hL
    have hstep : 0 ≤ (init * ((L : ℚ) - 1) + x) / (L : ℚ) :=
      div_nonneg (add_nonneg (mul_nonneg hinit (by linarith)) hx)
        (by linarith)
    exact ih _ hstep (fun y hy => hxs y (by simp [hy]))

theorem wilderAverage_nonneg (L : Nat) (hL : 1 ≤ L) (xs : List ℚ)
    (hxs : ∀ x ∈ xs, 0 ≤ x) : 0 ≤ wilderAverage L xs := by
  refine wilderSmooth_nonneg L hL _ ?_ _
    (fun x hx => hxs x (List.drop_subset _ _ hx))
  exact div_nonneg
    (List.sum_nonneg fun x hx => hxs x (List.take_subset _ _ hx))
    (by positivity)

theorem avgGain_nonneg (L : Nat) (hL : 1 ≤ L) (closes : List ℚ) :
    0 ≤ avgGain L closes := by
  refine wilderAverage_nonneg L hL _ (fun x hx => ?_)
  obtain ⟨d, _, rfl⟩ := List.mem_map.mp hx
  exact le_max_right d 0

theorem avgLoss_nonneg (L : Nat) (hL : 1 ≤ L) (closes : List ℚ) :
    0 ≤ avgLoss L closes := by
  refine wilderAverage_nonneg L hL _ (fun x hx => ?_)
  obtain ⟨d, _, rfl⟩ := List.mem_map.mp hx
  exact le_max_right (-d) 0

theorem trueRanges_nonneg :
    ∀ (l : List (ℚ × ℚ × ℚ)), ∀ x ∈ trueRanges l, 0 ≤ x := by
  intro l
  induction l with
  | nil => simp [trueRanges]
  | cons a l ih =>
    cases l with
    | nil => simp [trueRanges]
    | cons b rest =>
      intro x hx
      simp only [trueRanges, List.mem_cons] at hx
      rcases hx with h | h
      · subst h
        calc (0 : ℚ) ≤ |b.1 - a.2.2| := abs_nonneg _
          _ ≤ max |b.1 - a.2.2| |b.2.1 - a.2.2| := le_max_left _ _
          _ ≤ max (b.1 - b.2.1) (max |b.1 - a.2.2| |b.2.1 - a.2.2|) :=
            le_max_right _ _
      · exact ih x h

/-- C8: for every close series of length at least `L+1` (and candle
series of length at least `L+1`) with period `L ≥ 1`, the RSI value the
feature step computes exists and lies in `[0, 100]` — equal to `100`
exactly when the Wilder average loss is `0` — and the ATR value exists
and is nonnegative. (The indicator implementations live in the external
`pandas_ta` library; they are modelled from the spec, section 4.4.) -/
theorem rsi_in_unit_range_and_atr_nonneg (L : Nat) (closes : List ℚ)
    (hlc : List (ℚ × ℚ × ℚ)) (hL : 1 ≤ L) (hcl : L + 1 ≤ closes.length)
    (hhl : L + 1 ≤ hlc.length) :
    (∃ r, rsiIndicator L closes = some r ∧ 0 ≤ r ∧ r ≤ 100 ∧
      (avgLoss L closes = 0 → r = 100)) ∧
    (∃ a, atrIndicator L hlc = some a ∧ 0 ≤ a) := by
  have hcond1 : ¬ (L = 0 ∨ closes.length < L + 1) := by omega
  have hcond2 : ¬ (L = 0 ∨ hlc.length < L + 1) := by omega
  have hag : 0 ≤ avgGain L closes := avgGain_nonneg L hL closes
  have hal : 0 ≤ avgLoss L closes := avgLoss_nonneg L hL closes
  constructor
  · refine ⟨_, by rw [rsiIndicator, if_neg hcond1], ?_, ?_, fun h0 => by simp [h0]⟩
    · by_cases h0 : avgLoss L closes = 0
      · simp [h0]
      · rw [if_neg h0]
        have hq : 0 ≤ avgGain L closes / avgLoss L closes := div_nonneg hag hal
        have hdiv : 100 / (1 + avgGain L closes / avgLoss L closes) ≤ 100 :=
          div_le_self (by norm_num) (by linarith)
        linarith
    · by_cases h0 : avgLoss L closes = 0
      · simp [h0]
      · rw [if_neg h0]
        have hq : 0 ≤ avgGain L closes / avgLoss L closes := div_nonneg hag hal
        have hdiv : 0 < 100 / (1 + avgGain L closes / avgLoss L closes) :=
          div_pos (by norm_num) (by linarith)
        linarith
  · exact ⟨_, by rw [atrIndicator, if_neg hcond2],
      wilderAverage_nonneg L hL _ (trueRanges_nonneg hlc)⟩

/-- Witness for C8: period 1, closes `[1, 2, 3]`, two (high, low, close)
triples. -/
theorem rsi_in_unit_range_and_atr_nonneg_witness :
    (∃ r, rsiIndicator 1 [1, 2, 3] = some r ∧ 0 ≤ r ∧ r ≤ 100 ∧
      (avgLoss 1 [1, 2, 3] = 0 → r = 100)) ∧
    (∃ a, atrIndicator 1 [(2, 1, 1), (3, 2, 2)] = some a ∧ 0 ≤ a) :=
  rsi_in_unit_range_and_atr_nonneg 1 [1, 2, 3] [(2, 1, 1), (3, 2, 2)]
    (by decide) (by decide) (by decide)
